import Mathlib

/-!
Shallow embedding of the rate-limited flight-lookup API
(`src/api_server.py`) and its load-simulation harness
(`src/cli/simulate_abuse.py`).

The embedding models:
* the fixed-window admission control implemented by the `rate_limiter`
  decorator (a global dict `RATE_LIMIT` keyed by `f"{token}:{now // 60}"`,
  modelled as an association list keyed by `(token, windowIndex)` — the
  string encoding is injective because the window index contains no colon);
* the on-demand flight generator `generate_flights_on_demand`, with the
  Python `random` module modelled as an arbitrary stream of naturals
  (`random.randint(a, b)` draws the next stream value and maps it into
  `[a, b]`; `random.choice(l)` indexes `l` by the next value mod `|l|`);
* the `/api/flights` endpoint `flights` (the dispatcher), including the
  robust `int(...)` parsing of `min_price` / `max_price`;
* a small-step interleaving semantics for concurrent invocations of the
  rate limiter, where the check (lines 44-53 of `api_server.py`) and the
  increment (line 55) of one call are separate atomic steps — faithful to
  threaded Flask execution, where a context switch may occur between the
  two statements;
* the outcome classification and running totals kept by
  `AbuseSimulator.make_request` / `print_statistics`.
-/

/-- Generic association-list lookup, mirroring Python dict lookup
(insertion order preserved; keys are unique by construction). -/
def lookupAssoc {α β : Type} [DecidableEq α] : List (α × β) → α → Option β
  | [], _ => none
  | (k, v) :: rest, key => if k = key then some v else lookupAssoc rest key

/-- Key of the `RATE_LIMIT` dict: `(token, now // 60)`. -/
abbrev WindowKey := String × Nat

/-- The global `RATE_LIMIT` dict: `WindowKey ↦ count`. -/
abbrev CounterStore := List (WindowKey × Nat)

/-- Count recorded for a key (0 when the key is absent). -/
def countOf (s : CounterStore) (k : WindowKey) : Nat :=
  (lookupAssoc s k).getD 0

/-- `RATE_LIMIT.setdefault(key, v)`: insert `(key, v)` iff absent. -/
def setdefault (s : CounterStore) (k : WindowKey) (v : Nat) : CounterStore :=
  if (lookupAssoc s k).isSome then s else s ++ [(k, v)]

/-- `RATE_LIMIT[key] += 1`: update the value stored at `k` (dict keys are
unique, so updating the first occurrence is the dict update). -/
def bump : CounterStore → WindowKey → CounterStore
  | [], _ => []
  | (a, v) :: rest, k => if a = k then (a, v + 1) :: rest else (a, v) :: bump rest k

/-- One entry of the token map built by `load_user_tokens`:
`{"role": permission, "limit": limit}`. -/
structure TierInfo where
  role : String
  limit : Nat
deriving DecidableEq

/-- Outcome of one pass through the `rate_limiter` decorator body. -/
inductive AllowOutcome where
  | allowed
  | throttled
  | noAuth
deriving DecidableEq

/-- Lines 44-56 of `api_server.py`: the decorator body for one request.
`tokens` models the map returned by `load_user_tokens()` (read-only file
data outside `src/`), `now` models `int(time.time())`. -/
def allowStep (tokens : String → Option TierInfo) (store : CounterStore)
    (token : String) (now : Nat) : AllowOutcome × CounterStore :=
  match tokens token with
  | none => (AllowOutcome.noAuth, store)
  | some info =>
    let key : WindowKey := (token, now / 60)
    let s1 := setdefault store key 0
    if info.limit ≤ countOf s1 key then (AllowOutcome.throttled, s1)
    else (AllowOutcome.allowed, bump s1 key)

/-- Sequential iteration of `allowStep` over a list of `(token, now)`
invocations, collecting the outcomes. -/
def runCalls (tokens : String → Option TierInfo) (store : CounterStore) :
    List (String × Nat) → List AllowOutcome × CounterStore
  | [] => ([], store)
  | (t, n) :: rest =>
    let r := allowStep tokens store t n
    let rs := runCalls tokens r.2 rest
    (r.1 :: rs.1, rs.2)

/-- Model of the `random` module: an arbitrary stream of naturals plus a
position. Each primitive draw consumes one stream value. -/
structure RandGen where
  stream : Nat → Nat
  pos : Nat

/-- Draw the next raw stream value. -/
def nextNat (g : RandGen) : Nat × RandGen :=
  (g.stream g.pos, { stream := g.stream, pos := g.pos + 1 })

/-- `random.randint(lo, hi)`: an integer in `[lo, hi]` (when `lo ≤ hi`). -/
def randint (lo hi : Int) (g : RandGen) : Int × RandGen :=
  let r := nextNat g
  (lo + (r.1 : Int) % (hi - lo + 1), r.2)

/-- `random.choice(l)` for a nonempty list. -/
def choose {α : Type} [Inhabited α] (l : List α) (g : RandGen) : α × RandGen :=
  let r := nextNat g
  (l.getD (r.1 % l.length) default, r.2)

/-- The `AIRLINES` dict of `api_server.py` (insertion order). -/
def AIRLINES : List (String × String) :=
  [("CI", "China Airlines"), ("BR", "EVA Air"), ("JX", "Starlux"),
   ("TG", "Thai Airways"), ("JL", "Japan Airlines"), ("SQ", "Singapore Airlines"),
   ("TR", "Scoot"), ("IT", "Tigerair Taiwan")]

/-- The `PRICE_CATEGORIES` dict: route ↦ category ↦ (min, max). -/
def PRICE_CATEGORIES : List ((String × String) × List (String × (Int × Int))) :=
  [(("TPE", "NRT"), [("promo", (3500, 5500)), ("normal", (6000, 10000)), ("peak", (11000, 16000))]),
   (("TPE", "KIX"), [("promo", (3500, 5500)), ("normal", (6000, 10000)), ("peak", (11000, 16000))]),
   (("TPE", "SIN"), [("promo", (3500, 5500)), ("normal", (6000, 9000)), ("peak", (9000, 12000))]),
   (("TPE", "BKK"), [("promo", (3000, 5000)), ("normal", (5500, 8500)), ("peak", (8500, 11000))])]

/-- The `DEFAULT_PRICE_RANGES` dict. -/
def DEFAULT_PRICE_RANGES : List (String × (Int × Int)) :=
  [("promo", (2000, 4000)), ("normal", (4000, 7000)), ("peak", (7000, 10000))]

/-- The `CABIN_TYPE_MAP` dict. -/
def CABIN_TYPE_MAP : List (String × String) :=
  [("經濟艙", "normal"), ("經濟艙促銷", "promo"), ("商務艙", "peak"), ("頭等艙", "peak")]

/-- Python truthiness of an optional string (`None` and `""` are falsy). -/
def truthy : Option String → Bool
  | none => false
  | some s => s ≠ ""

/-- Parameters reaching `generate_flights_on_demand` (after the dispatcher
converted `min_price` / `max_price` to ints and set `count`). -/
structure GenParams where
  fromLoc : Option String
  toLoc : Option String
  dateStr : Option String
  reqType : Option String
  minPrice : Int
  maxPrice : Int
  count : Nat

/-- One flight dict produced by the generator. -/
structure FlightRecord where
  flight : String
  airline : String
  fromLoc : String
  toLoc : String
  date : String
  time : String
  price : Int
  type : String
deriving DecidableEq

instance : Inhabited FlightRecord :=
  ⟨⟨"", "", "", "", "", "", 0, ""⟩⟩

/-- Lines 113-120 of `api_server.py`: resolve the internal ticket type
from the raw `type` query parameter. -/
def resolveTicketType (rt : Option String) (g : RandGen) : String × RandGen :=
  match rt with
  | some s =>
    if s ≠ "" ∧ (lookupAssoc CABIN_TYPE_MAP s).isSome then
      ((lookupAssoc CABIN_TYPE_MAP s).getD ("normal"), g)
    else if s = "promo" ∨ s = "normal" ∨ s = "peak" then (s, g)
    else choose ["promo", "normal", "peak"] g
  | none => choose ["promo", "normal", "peak"] g

/-- `PRICE_CATEGORIES.get((from_loc, to_loc), DEFAULT_PRICE_RANGES)`. -/
def route_prices (fromLoc toLoc : String) : List (String × (Int × Int)) :=
  (lookupAssoc PRICE_CATEGORIES (fromLoc, toLoc)).getD DEFAULT_PRICE_RANGES

/-- `route_prices.get(ticket_type, (0, 99999))`. -/
def type_price_range (rp : List (String × (Int × Int))) (tt : String) : Int × Int :=
  (lookupAssoc rp tt).getD (0, 99999)

/-- The intersected price window of one iteration:
`(max(min_p, type_min_p), min(max_p, type_max_p))`. -/
def priceWindow (p : GenParams) (tt : String) : Int × Int :=
  let r := type_price_range (route_prices (p.fromLoc.getD ("")) (p.toLoc.getD (""))) tt
  (max p.minPrice r.1, min p.maxPrice r.2)

/-- `f"{n:02d}"` for the hour draw. -/
def twoDigit (n : Int) : String :=
  if n < 10 then "0" ++ toString n else toString n

/-- Lines 139-148 of `api_server.py`: draw the airline, the flight
number, the departure time and the price, and build the flight dict, in
the source's evaluation order. -/
def mkFlight (p : GenParams) (tt : String) (w : Int × Int) (g : RandGen) :
    FlightRecord × RandGen :=
  let ac := choose (AIRLINES.map Prod.fst) g
  let fn := randint 100 999 ac.2
  let hr := randint 7 21 fn.2
  let hm := choose ["00", "30"] hr.2
  let pr := randint w.1 w.2 hm.2
  ({ flight := ac.1 ++ "-" ++ toString fn.1,
     airline := (lookupAssoc AIRLINES ac.1).getD (""),
     fromLoc := p.fromLoc.getD (""), toLoc := p.toLoc.getD (""),
     date := p.dateStr.getD (""),
     time := twoDigit hr.1 ++ ":" ++ hm.1,
     price := pr.1.fdiv 100 * 100,
     type := tt }, pr.2)

/-- One iteration of the generation loop (lines 106-149): either a record
or `none` when the price intersection is empty (the `continue`). -/
def genIteration (p : GenParams) (g : RandGen) : Option FlightRecord × RandGen :=
  let tg := resolveTicketType p.reqType g
  let w := priceWindow p tg.1
  if w.1 > w.2 then (none, tg.2)
  else
    let fr := mkFlight p tg.1 w tg.2
    (some fr.1, fr.2)

/-- The `for _ in range(count)` loop, recording each iteration's outcome. -/
def genLoop (p : GenParams) : Nat → RandGen → List (Option FlightRecord) × RandGen
  | 0, g => ([], g)
  | n + 1, g =>
    let o := genIteration p g
    let os := genLoop p n o.2
    (o.1 :: os.1, os.2)

/-- Stable insertion into a price-sorted list. -/
def insertByPrice (r : FlightRecord) : List FlightRecord → List FlightRecord
  | [] => [r]
  | x :: xs => if r.price ≤ x.price then r :: x :: xs else x :: insertByPrice r xs

/-- `sorted(generated_flights, key=lambda x: x['price'])`: a stable sort
ascending by price (insertion sort, extensionally the same ordering
contract as Python's `sorted`). -/
def sortByPrice : List FlightRecord → List FlightRecord
  | [] => []
  | x :: xs => insertByPrice x (sortByPrice xs)

/-- `generate_flights_on_demand` (lines 89-151 of `api_server.py`). -/
def generate_flights_on_demand (p : GenParams) (g : RandGen) : List FlightRecord :=
  if truthy p.fromLoc && truthy p.toLoc && truthy p.dateStr then
    sortByPrice (((genLoop p p.count g).1).filterMap id)
  else []

/-- Digits of a Python `int(...)` literal body; `none` when empty or a
non-digit appears. -/
def digitsToNat? (cs : List Char) : Option Nat :=
  if cs = [] then none
  else cs.foldl
    (fun acc c => acc.bind (fun n => if c.isDigit then some (n * 10 + (c.toNat - 48)) else none))
    (some 0)

/-- Whitespace stripped by Python `int(str)`. -/
def isSpaceChar (c : Char) : Bool :=
  c = ' ' ∨ c = '\t' ∨ c = '\n' ∨ c = '\r'

/-- Model of Python `int(s)` on a string: optional surrounding whitespace,
optional sign, nonempty digit run; `none` models `ValueError`. -/
def parseInt? (s : String) : Option Int :=
  let cs := ((s.toList.dropWhile isSpaceChar).reverse.dropWhile isSpaceChar).reverse
  match cs with
  | '-' :: rest => (digitsToNat? rest).map (fun n => -(n : Int))
  | '+' :: rest => (digitsToNat? rest).map (fun n => (n : Int))
  | _ => (digitsToNat? cs).map (fun n => (n : Int))

/-- `int(query_params.get(k, d))`: the default is already an int. -/
def parseIntOpt : Option String → Int → Option Int
  | none, d => some d
  | some s, _ => parseInt? s

/-- An inbound request as seen by the `/api/flights` handler: the bearer
token (already stripped of `"Bearer "`) and the flat query parameters. -/
structure RawRequest where
  token : String
  fromLoc : Option String
  toLoc : Option String
  dateStr : Option String
  reqType : Option String
  minPriceRaw : Option String
  maxPriceRaw : Option String

/-- The HTTP responses the endpoint can produce. -/
inductive Response where
  | ok (flightList : List FlightRecord)
  | badRequest (which : String)
  | unauthorized
  | tooManyRequests
deriving DecidableEq

/-- `density_config.get(user_permission, 1)`. -/
def densityConfig (role : String) : Nat :=
  if role = "pro" then 3 else if role = "plus" then 2 else 1

/-- The body of `flights()` (lines 156-181), reached only when the rate
limiter allowed the request. -/
def flightsBody (tokens : String → Option TierInfo) (req : RawRequest)
    (g : RandGen) : Response :=
  match parseIntOpt req.minPriceRaw 0 with
  | none => Response.badRequest ("min_price")
  | some minP =>
    match parseIntOpt req.maxPriceRaw 99999 with
    | none => Response.badRequest ("max_price")
    | some maxP =>
      let role := ((tokens req.token).map TierInfo.role).getD ("free")
      Response.ok (generate_flights_on_demand
        { fromLoc := req.fromLoc, toLoc := req.toLoc, dateStr := req.dateStr,
          reqType := req.reqType, minPrice := minP, maxPrice := maxP,
          count := densityConfig role } g)

/-- The full `/api/flights` endpoint: the `rate_limiter` decorator runs
first, and only an allowed request reaches `flightsBody`. -/
def flights (tokens : String → Option TierInfo) (store : CounterStore)
    (now : Nat) (req : RawRequest) (g : RandGen) : Response × CounterStore :=
  let r := allowStep tokens store req.token now
  match r.1 with
  | AllowOutcome.noAuth => (Response.unauthorized, r.2)
  | AllowOutcome.throttled => (Response.tooManyRequests, r.2)
  | AllowOutcome.allowed => (flightsBody tokens req g, r.2)

/-- Progress of one in-flight `rate_limiter` invocation in the
interleaving semantics: `start` is about to execute the auth check, the
`setdefault` and the limit comparison (lines 44-53) as one atomic block;
`midway` has passed the comparison and is about to execute the increment
(line 55). -/
inductive Phase where
  | start
  | midway
  | finished (o : AllowOutcome)
deriving DecidableEq

/-- Global state of several concurrent `rate_limiter` invocations. -/
structure ConcState where
  store : CounterStore
  threads : List ((String × Nat) × Phase)
deriving Inhabited

/-- Execute one atomic block of thread `i`. A context switch between the
limit comparison (line 53) and the increment (line 55) is exactly a
schedule that runs other threads between a thread's two steps. -/
def stepThread (tokens : String → Option TierInfo) (st : ConcState)
    (i : Nat) : ConcState :=
  match st.threads.get? i with
  | none => st
  | some ((tok, now), ph) =>
    match ph with
    | Phase.start =>
      match tokens tok with
      | none =>
        { store := st.store,
          threads := st.threads.set i ((tok, now), Phase.finished AllowOutcome.noAuth) }
      | some info =>
        let key : WindowKey := (tok, now / 60)
        let s1 := setdefault st.store key 0
        if info.limit ≤ countOf s1 key then
          { store := s1,
            threads := st.threads.set i ((tok, now), Phase.finished AllowOutcome.throttled) }
        else
          { store := s1, threads := st.threads.set i ((tok, now), Phase.midway) }
    | Phase.midway =>
      let key : WindowKey := (tok, now / 60)
      { store := bump st.store key,
        threads := st.threads.set i ((tok, now), Phase.finished AllowOutcome.allowed) }
    | Phase.finished _ => st

/-- Run a schedule (a list of thread indices, each entry one atomic
block). -/
def runSched (tokens : String → Option TierInfo) (st : ConcState) :
    List Nat → ConcState
  | [] => st
  | i :: rest => runSched tokens (stepThread tokens st i) rest

/-- Number of threads that finished with the given outcome. -/
def finishedCount (st : ConcState) (o : AllowOutcome) : Nat :=
  st.threads.countP (fun t => t.2 = Phase.finished o)

/-- One observed call result at the simulator's client boundary. -/
inductive CallOutcome where
  | http (code : Nat)
  | connError
deriving DecidableEq

/-- The running totals of `AbuseSimulator`. -/
structure SimStats where
  total_requests : Nat
  successful_requests : Nat
  failed_requests : Nat
  blocked_requests : Nat
deriving DecidableEq

/-- `AbuseSimulator.make_request` (lines 81-106 of `simulate_abuse.py`):
classify one call result and fold it into the totals. On the exception
path (`ConnectionError`) the code increments `failed_requests` but never
reaches the `total_requests += 1` statement inside the `try` block. -/
def make_request (st : SimStats) (o : CallOutcome) : String × SimStats :=
  match o with
  | CallOutcome.http code =>
    let st1 := { st with total_requests := st.total_requests + 1 }
    if code = 200 then
      ("SUCCESS", { st1 with successful_requests := st1.successful_requests + 1 })
    else if code = 429 then
      ("RATE_LIMITED", { st1 with blocked_requests := st1.blocked_requests + 1 })
    else if code = 401 then
      ("AUTH_FAILED", { st1 with failed_requests := st1.failed_requests + 1 })
    else
      ("ERROR_" ++ toString code, { st1 with failed_requests := st1.failed_requests + 1 })
  | CallOutcome.connError =>
    ("CONNECTION_ERROR", { st with failed_requests := st.failed_requests + 1 })

/-- Fold a sequence of call results through `make_request`. -/
def runRequests (st : SimStats) : List CallOutcome → SimStats
  | [] => st
  | o :: rest => runRequests (make_request st o).2 rest

/-- What `AbuseSimulator.print_statistics` reports: the four totals and,
when `total_requests > 0`, the success and block percentages (floats in
the source, exact rationals here). -/
def print_statistics (st : SimStats) :
    Nat × Nat × Nat × Nat × Option (ℚ × ℚ) :=
  (st.total_requests, st.successful_requests, st.failed_requests,
   st.blocked_requests,
   if 0 < st.total_requests then
     some ((st.successful_requests : ℚ) / st.total_requests * 100,
           (st.blocked_requests : ℚ) / st.total_requests * 100)
   else none)

/-! ### Lemmas about the counter store -/

/-! ### Concrete fixtures used by witnesses and counterexamples -/

/-- A one-user token map: `alice` is a free-tier user (limit 15). -/
def demoTokens : String → Option TierInfo :=
  fun t => if t = "alice" then some { role := "free", limit := 15 } else none

/-- A constant random stream. -/
def zeroGen : RandGen :=
  { stream := fun _ => 0, pos := 0 }

/-- 16 concurrent `rate_limiter` invocations by `alice` (limit 15), all in
window 0, all still at the start of the decorator body. -/
def raceInit : ConcState :=
  { store := [], threads := List.replicate 16 (("alice", 0), Phase.start) }

/-- The schedule that first runs every thread's check block, then every
thread's increment block. -/
def raceSched : List Nat :=
  List.range 16 ++ List.range 16

/-- A request carrying a token nobody holds. -/
def ghostReq : RawRequest :=
  { token := "ghost", fromLoc := some "TPE", toLoc := some "NRT",
    dateStr := some "2026-01-01", reqType := none,
    minPriceRaw := none, maxPriceRaw := none }

/-- A request by `alice` whose `min_price` is not an integer. -/
def badPriceReq : RawRequest :=
  { token := "alice", fromLoc := some "TPE", toLoc := some "NRT",
    dateStr := some "2026-01-01", reqType := none,
    minPriceRaw := some "abc", maxPriceRaw := none }

/-- A request by `alice` with no travel date. -/
def noDateReq : RawRequest :=
  { token := "alice", fromLoc := some "TPE", toLoc := some "NRT",
    dateStr := none, reqType := none,
    minPriceRaw := none, maxPriceRaw := none }

/-- The price range resolved from the route and the record's category. -/
def resolvedRange (p : GenParams) (tt : String) : Int × Int :=
  type_price_range (route_prices (p.fromLoc.getD ("")) (p.toLoc.getD (""))) tt

/-- A caller window `[4050, 5000]` against the `TPE→NRT` promo range. -/
def lowMinParams : GenParams :=
  { fromLoc := some "TPE", toLoc := some "NRT", dateStr := some "2026-01-01",
    reqType := some "promo", minPrice := 4050, maxPrice := 5000, count := 1 }

/-- Parameters whose caller window `[9000, 9500]` is empty against the
promo range but feasible against the normal range of `TPE→NRT`. -/
def tightParams : GenParams :=
  { fromLoc := some "TPE", toLoc := some "NRT", dateStr := some "2026-01-01",
    reqType := none, minPrice := 9000, maxPrice := 9500, count := 2 }

/-- A stream that resolves the first iteration's category to `normal` and
the second one's to `promo`. -/
def tightGen : RandGen :=
  { stream := fun n => if n = 0 then 1 else 0, pos := 0 }

/-- A two-record synthesis request with wide caller bounds. -/
def dupParams : GenParams :=
  { fromLoc := some "TPE", toLoc := some "NRT", dateStr := some "2026-01-01",
    reqType := some "promo", minPrice := 0, maxPrice := 99999, count := 2 }

/-- The zero totals `AbuseSimulator.__init__` starts from. -/
def initStats : SimStats :=
  { total_requests := 0, successful_requests := 0,
    failed_requests := 0, blocked_requests := 0 }

theorem lookupAssoc_append_of_none {α β : Type} [DecidableEq α]
    {s : List (α × β)} {k : α} (l : List (α × β))
    (h : lookupAssoc s k = none) :
    lookupAssoc (s ++ l) k = lookupAssoc l k := by
  induction s with
  | nil => rfl
  | cons p rest ih =>
    obtain ⟨a, b⟩ := p
    simp only [lookupAssoc] at h
    by_cases hak : a = k
    · rw [if_pos hak] at h
      exact absurd h (by simp)
    · rw [if_neg hak] at h
      simp only [List.cons_append, lookupAssoc, if_neg hak]
      exact ih h

theorem lookupAssoc_bump {s : CounterStore} {k : WindowKey} :
    lookupAssoc (bump s k) k = (lookupAssoc s k).map (fun v => v + 1) := by
  induction s with
  | nil => rfl
  | cons p rest ih =>
    obtain ⟨a, b⟩ := p
    by_cases hak : a = k
    · subst hak
      simp [bump, lookupAssoc]
    · simp only [bump, if_neg hak, lookupAssoc]
      exact ih

theorem lookupAssoc_setdefault {s : CounterStore} {k : WindowKey} :
    lookupAssoc (setdefault s k 0) k = some (countOf s k) := by
  unfold setdefault countOf
  cases h : lookupAssoc s k with
  | none =>
    simp only [h, Option.isSome_none, Bool.false_eq_true, if_false, Option.getD_none]
    rw [lookupAssoc_append_of_none _ h]
    simp [lookupAssoc]
  | some v => simp [h]

theorem countOf_setdefault {s : CounterStore} {k : WindowKey} :
    countOf (setdefault s k 0) k = countOf s k := by
  unfold countOf
  rw [lookupAssoc_setdefault]
  rfl

theorem countOf_bump_setdefault {s : CounterStore} {k : WindowKey} :
    countOf (bump (setdefault s k 0) k) k = countOf s k + 1 := by
  unfold countOf
  rw [lookupAssoc_bump, lookupAssoc_setdefault]
  rfl

/-! ### Lemmas about one pass of the rate limiter -/

theorem allowStep_throttled_eq {tokens : String → Option TierInfo}
    {s : CounterStore} {t : String} {n : Nat} {info : TierInfo}
    (htok : tokens t = some info)
    (hge : info.limit ≤ countOf s (t, n / 60)) :
    allowStep tokens s t n = (AllowOutcome.throttled, setdefault s (t, n / 60) 0) := by
  simp [allowStep, htok, countOf_setdefault, hge]

theorem allowStep_allowed_eq {tokens : String → Option TierInfo}
    {s : CounterStore} {t : String} {n : Nat} {info : TierInfo}
    (htok : tokens t = some info)
    (hlt : countOf s (t, n / 60) < info.limit) :
    allowStep tokens s t n =
      (AllowOutcome.allowed, bump (setdefault s (t, n / 60) 0) (t, n / 60)) := by
  simp [allowStep, htok, countOf_setdefault, Nat.not_le.mpr hlt]

theorem allowStep_throttled_frame {tokens : String → Option TierInfo}
    {s : CounterStore} {u : String} {n : Nat}
    (h : (allowStep tokens s u n).1 = AllowOutcome.throttled) :
    countOf (allowStep tokens s u n).2 (u, n / 60) = countOf s (u, n / 60) := by
  cases htok : tokens u with
  | none => simp [allowStep, htok] at h
  | some info =>
    by_cases hge : info.limit ≤ countOf s (u, n / 60)
    · rw [allowStep_throttled_eq htok hge]
      exact countOf_setdefault
    · rw [allowStep_allowed_eq htok (Nat.not_le.mp hge)] at h
      simp at h

/-! ### Sequential quota accounting -/

theorem runCalls_window (tokens : String → Option TierInfo) (t : String)
    (info : TierInfo) (w : Nat) (htok : tokens t = some info)
    (nows : List Nat) :
    ∀ store : CounterStore, (∀ m ∈ nows, m / 60 = w) →
      (runCalls tokens store (nows.map (fun m => (t, m)))).1.count AllowOutcome.allowed
          = min nows.length (info.limit - countOf store (t, w)) ∧
      (runCalls tokens store (nows.map (fun m => (t, m)))).1.count AllowOutcome.throttled
          = nows.length - min nows.length (info.limit - countOf store (t, w)) ∧
      countOf (runCalls tokens store (nows.map (fun m => (t, m)))).2 (t, w)
          = countOf store (t, w) + min nows.length (info.limit - countOf store (t, w)) := by
  induction nows with
  | nil => intro store _; simp [runCalls]
  | cons m ms ih =>
    intro store hw
    have hm : m / 60 = w := hw m (List.mem_cons_self m ms)
    have hall : ∀ x ∈ ms, x / 60 = w := fun x hx => hw x (List.mem_cons_of_mem m hx)
    by_cases hc : countOf store (t, w) < info.limit
    · have hstep := allowStep_allowed_eq (s := store) (n := m) htok (by rw [hm]; exact hc)
      have hnew : countOf (bump (setdefault store (t, m / 60) 0) (t, m / 60)) (t, w)
          = countOf store (t, w) + 1 := by
        rw [hm]; exact countOf_bump_setdefault
      obtain ⟨ih1, ih2, ih3⟩ := ih (bump (setdefault store (t, m / 60) 0) (t, m / 60)) hall
      rw [hnew] at ih1 ih2 ih3
      simp only [List.map_cons, runCalls, hstep, List.count_cons, List.length_cons]
      refine ⟨?_, ?_, ?_⟩
      · rw [ih1]; simp; omega
      · rw [ih2]; simp; omega
      · rw [ih3]; omega
    · have hge : info.limit ≤ countOf store (t, m / 60) := by
        rw [hm]; omega
      have hstep := allowStep_throttled_eq (s := store) (n := m) htok hge
      have hnew : countOf (setdefault store (t, m / 60) 0) (t, w) = countOf store (t, w) := by
        rw [hm]; exact countOf_setdefault
      obtain ⟨ih1, ih2, ih3⟩ := ih (setdefault store (t, m / 60) 0) hall
      rw [hnew] at ih1 ih2 ih3
      simp only [List.map_cons, runCalls, hstep, List.count_cons, List.length_cons]
      refine ⟨?_, ?_, ?_⟩
      · rw [ih1]; simp; omega
      · rw [ih2]; simp; omega
      · rw [ih3]; omega

/-- Claim C2: for a known token with limit `L`, a sequence of sequential
`rate_limiter` invocations all falling in the same 60-second window,
starting from a window with count 0, allows exactly `min C L` of them,
rejects the remaining `C - min C L` with 429, leaves the window counter at
`min C L ≤ L`, and a rejected call never changes the counter. -/
theorem rate_limiter_sequential_quota (tokens : String → Option TierInfo)
    (t : String) (info : TierInfo) (w : Nat) (nows : List Nat)
    (store : CounterStore)
    (htok : tokens t = some info)
    (hw : ∀ m ∈ nows, m / 60 = w)
    (h0 : countOf store (t, w) = 0) :
    (runCalls tokens store (nows.map (fun m => (t, m)))).1.count AllowOutcome.allowed
        = min nows.length info.limit ∧
    (runCalls tokens store (nows.map (fun m => (t, m)))).1.count AllowOutcome.throttled
        = nows.length - min nows.length info.limit ∧
    countOf (runCalls tokens store (nows.map (fun m => (t, m)))).2 (t, w)
        = min nows.length info.limit ∧
    countOf (runCalls tokens store (nows.map (fun m => (t, m)))).2 (t, w) ≤ info.limit ∧
    (∀ (s : CounterStore) (u : String) (n : Nat),
      (allowStep tokens s u n).1 = AllowOutcome.throttled →
      countOf (allowStep tokens s u n).2 (u, n / 60) = countOf s (u, n / 60)) := by
  obtain ⟨h1, h2, h3⟩ := runCalls_window tokens t info w htok nows store hw
  rw [h0] at h1 h2 h3
  simp only [Nat.sub_zero, Nat.zero_add] at h1 h2 h3
  refine ⟨h1, h2, h3, by omega, ?_⟩
  intro s u n h
  exact allowStep_throttled_frame h

/-- Witness for C2: 20 calls by `alice` (limit 15) inside window 0 give
exactly 15 allowed, 5 throttled, and a final counter of 15. -/
theorem rate_limiter_sequential_quota_witness :
    (runCalls demoTokens [] ((List.replicate 20 0).map (fun m => ("alice", m)))).1.count
        AllowOutcome.allowed = min (List.replicate 20 0).length ({ role := "free", limit := 15 : TierInfo }).limit ∧
    (runCalls demoTokens [] ((List.replicate 20 0).map (fun m => ("alice", m)))).1.count
        AllowOutcome.throttled = (List.replicate 20 0).length -
          min (List.replicate 20 0).length ({ role := "free", limit := 15 : TierInfo }).limit ∧
    countOf (runCalls demoTokens [] ((List.replicate 20 0).map (fun m => ("alice", m)))).2
        ("alice", 0) = min (List.replicate 20 0).length ({ role := "free", limit := 15 : TierInfo }).limit ∧
    countOf (runCalls demoTokens [] ((List.replicate 20 0).map (fun m => ("alice", m)))).2
        ("alice", 0) ≤ ({ role := "free", limit := 15 : TierInfo }).limit ∧
    (∀ (s : CounterStore) (u : String) (n : Nat),
      (allowStep demoTokens s u n).1 = AllowOutcome.throttled →
      countOf (allowStep demoTokens s u n).2 (u, n / 60) = countOf s (u, n / 60)) :=
  rate_limiter_sequential_quota demoTokens "alice" { role := "free", limit := 15 } 0
    (List.replicate 20 0) [] (by decide) (by decide) (by decide)

/-- Claim C1 (the code violates it): under the interleaving in which all
16 threads pass the `RATE_LIMIT[key] >= limit` check (line 53) before any
executes `RATE_LIMIT[key] += 1` (line 55), all 16 calls are admitted and
the counter reaches 16, although the limit is 15 and the claim demands
exactly `min(16, 15) = 15` admissions under every interleaving. -/
theorem rate_limiter_lost_update_race :
    finishedCount (runSched demoTokens raceInit raceSched) AllowOutcome.allowed = 16 ∧
    finishedCount (runSched demoTokens raceInit raceSched) AllowOutcome.throttled = 0 ∧
    min 16 15 = 15 ∧
    countOf (runSched demoTokens raceInit raceSched).store ("alice", 0) = 16 := by
  refine ⟨by decide, by decide, by decide, by decide⟩

/-- Claim C4: a request with an unknown bearer token gets 401 and the
CounterStore is returned entirely unchanged. -/
theorem unknown_token_no_side_effects (tokens : String → Option TierInfo)
    (store : CounterStore) (now : Nat) (req : RawRequest) (g : RandGen)
    (h : tokens req.token = none) :
    flights tokens store now req g = (Response.unauthorized, store) := by
  simp [flights, allowStep, h]

/-- Witness for C4 at a concrete request and store. -/
theorem unknown_token_no_side_effects_witness :
    flights (fun _ => none) [(("alice", 0), 3)] 0 ghostReq zeroGen
      = (Response.unauthorized, [(("alice", 0), 3)]) :=
  unknown_token_no_side_effects (fun _ => none) [(("alice", 0), 3)] 0 ghostReq zeroGen rfl

/-- Counterexample to claim C3: a request with malformed `min_price` from
a valid, under-limit identity is answered 400, but the rate limiter has
already run — the CounterStore entry for the window is created and
incremented from 0 to 1, so the request does consume a quota slot. -/
theorem malformed_price_consumes_quota_cex :
    (flights demoTokens [] 0 badPriceReq zeroGen).1 = Response.badRequest ("min_price") ∧
    countOf ([] : CounterStore) ("alice", 0) = 0 ∧
    countOf (flights demoTokens [] 0 badPriceReq zeroGen).2 ("alice", 0) = 1 := by
  refine ⟨by decide, by decide, by decide⟩

/-- Claim C3 as amended: a request whose `min_price` or `max_price` does
not parse is rejected with 400, but only after admission — when the token
is known and the window is under its limit, the window counter is
incremented by the rejected request (the quota slot is consumed). -/
theorem malformed_price_rejected_after_quota (tokens : String → Option TierInfo)
    (store : CounterStore) (now : Nat) (req : RawRequest) (g : RandGen)
    (info : TierInfo)
    (htok : tokens req.token = some info)
    (hlt : countOf store (req.token, now / 60) < info.limit)
    (hbad : parseIntOpt req.minPriceRaw 0 = none ∨ parseIntOpt req.maxPriceRaw 99999 = none) :
    (∃ which, (flights tokens store now req g).1 = Response.badRequest which) ∧
    countOf (flights tokens store now req g).2 (req.token, now / 60)
        = countOf store (req.token, now / 60) + 1 := by
  have hstep := allowStep_allowed_eq (s := store) (n := now) htok hlt
  constructor
  · simp only [flights, hstep]
    cases hmin : parseIntOpt req.minPriceRaw 0 with
    | none => exact ⟨"min_price", by simp [flightsBody, hmin]⟩
    | some m =>
      cases hmax : parseIntOpt req.maxPriceRaw 99999 with
      | none => exact ⟨"max_price", by simp [flightsBody, hmin, hmax]⟩
      | some M =>
        rcases hbad with h | h
        · rw [hmin] at h; exact absurd h (by simp)
        · rw [hmax] at h; exact absurd h (by simp)
  · simp only [flights, hstep]
    exact countOf_bump_setdefault

/-- Witness for the amended C3 at the concrete malformed request. -/
theorem malformed_price_rejected_after_quota_witness :
    (∃ which, (flights demoTokens [] 0 badPriceReq zeroGen).1 = Response.badRequest which) ∧
    countOf (flights demoTokens [] 0 badPriceReq zeroGen).2 ("alice", 0 / 60)
        = countOf [] ("alice", 0 / 60) + 1 :=
  malformed_price_rejected_after_quota demoTokens [] 0 badPriceReq zeroGen
    { role := "free", limit := 15 } (by decide) (by decide) (Or.inl (by decide))

/-- Claim C10: when origin, destination or date is missing (or empty), the
engine returns the empty list, and an admitted, well-formed request is
answered as an ordinary 200 success carrying the empty flight list. -/
theorem missing_fields_empty_success (tokens : String → Option TierInfo)
    (store : CounterStore) (now : Nat) (req : RawRequest) (g : RandGen)
    (info : TierInfo) (m M : Int)
    (htok : tokens req.token = some info)
    (hlt : countOf store (req.token, now / 60) < info.limit)
    (hmin : parseIntOpt req.minPriceRaw 0 = some m)
    (hmax : parseIntOpt req.maxPriceRaw 99999 = some M)
    (hmiss : (truthy req.fromLoc && truthy req.toLoc && truthy req.dateStr) = false) :
    (flights tokens store now req g).1 = Response.ok [] ∧
    (∀ (p : GenParams) (g' : RandGen),
      (truthy p.fromLoc && truthy p.toLoc && truthy p.dateStr) = false →
      generate_flights_on_demand p g' = []) := by
  constructor
  · have hstep := allowStep_allowed_eq (s := store) (n := now) htok hlt
    simp only [flights, hstep, flightsBody, hmin, hmax]
    simp [generate_flights_on_demand, hmiss]
  · intro p g' h
    simp [generate_flights_on_demand, h]

/-- Witness for C10 at a concrete request with a missing date. -/
theorem missing_fields_empty_success_witness :
    (flights demoTokens [] 0 noDateReq zeroGen).1 = Response.ok [] ∧
    (∀ (p : GenParams) (g' : RandGen),
      (truthy p.fromLoc && truthy p.toLoc && truthy p.dateStr) = false →
      generate_flights_on_demand p g' = []) :=
  missing_fields_empty_success demoTokens [] 0 noDateReq zeroGen
    { role := "free", limit := 15 } 0 99999 (by decide) (by decide) rfl rfl (by decide)

/-! ### Sortedness of the generator output -/

theorem insertByPrice_perm (r : FlightRecord) (l : List FlightRecord) :
    (insertByPrice r l).Perm (r :: l) := by
  induction l with
  | nil => exact List.Perm.refl _
  | cons x xs ih =>
    simp only [insertByPrice]
    split
    · exact List.Perm.refl _
    · exact (ih.cons x).trans (List.Perm.swap r x xs)

theorem insertByPrice_pairwise {r : FlightRecord} {l : List FlightRecord}
    (h : l.Pairwise (fun a b => a.price ≤ b.price)) :
    (insertByPrice r l).Pairwise (fun a b => a.price ≤ b.price) := by
  induction l with
  | nil => simp [insertByPrice]
  | cons x xs ih =>
    obtain ⟨hx, hxs⟩ := List.pairwise_cons.mp h
    simp only [insertByPrice]
    split
    · refine List.pairwise_cons.mpr ⟨?_, h⟩
      intro y hy
      rcases List.mem_cons.mp hy with hy | hy
      · subst hy; assumption
      · exact le_trans (by assumption) (hx y hy)
    · refine List.pairwise_cons.mpr ⟨?_, ih hxs⟩
      intro y hy
      have hy' : y = r ∨ y ∈ xs :=
        List.mem_cons.mp ((insertByPrice_perm r xs).mem_iff.mp hy)
      rcases hy' with hy' | hy'
      · subst hy'; omega
      · exact hx y hy'

theorem sortByPrice_perm (l : List FlightRecord) : (sortByPrice l).Perm l := by
  induction l with
  | nil => exact List.Perm.refl _
  | cons x xs ih => exact (insertByPrice_perm x (sortByPrice xs)).trans (ih.cons x)

theorem sortByPrice_pairwise (l : List FlightRecord) :
    (sortByPrice l).Pairwise (fun a b => a.price ≤ b.price) := by
  induction l with
  | nil => simp [sortByPrice]
  | cons x xs ih => exact insertByPrice_pairwise ih

/-- Claim C7: the flight list returned by `generate_flights_on_demand` is
non-decreasing in price. -/
theorem synthesis_sorted_by_price (p : GenParams) (g : RandGen) :
    (generate_flights_on_demand p g).Pairwise (fun a b => a.price ≤ b.price) := by
  unfold generate_flights_on_demand
  split
  · exact sortByPrice_pairwise _
  · simp

/-! ### Lemmas about the generator -/

theorem randint_bounds {lo hi : Int} (h : lo ≤ hi) (g : RandGen) :
    lo ≤ (randint lo hi g).1 ∧ (randint lo hi g).1 ≤ hi := by
  unfold randint nextNat
  have h1 : 0 ≤ ((g.stream g.pos : Nat) : Int) % (hi - lo + 1) :=
    Int.emod_nonneg _ (by omega)
  have h2 : ((g.stream g.pos : Nat) : Int) % (hi - lo + 1) < hi - lo + 1 :=
    Int.emod_lt_of_pos _ (by omega)
  constructor <;> simp <;> omega

theorem getD_mod_mem {α : Type} [Inhabited α] (l : List α) (n : Nat)
    (h : l ≠ []) : l.getD (n % l.length) default ∈ l := by
  have hlen : 0 < l.length := List.length_pos.mpr h
  have hlt : n % l.length < l.length := Nat.mod_lt _ hlen
  rw [List.getD_eq_getElem l default hlt]
  exact List.getElem_mem hlt

theorem lookupAssoc_getD_cases {α β : Type} [DecidableEq α]
    (l : List (α × β)) (k : α) (d : β) :
    (lookupAssoc l k).getD d = d ∨ ∃ p ∈ l, (lookupAssoc l k).getD d = p.2 := by
  induction l with
  | nil => left; rfl
  | cons q rest ih =>
    obtain ⟨a, b⟩ := q
    by_cases hak : a = k
    · right
      exact ⟨(a, b), List.mem_cons_self _ _, by simp [lookupAssoc, hak]⟩
    · rcases ih with h | ⟨p, hp, h⟩
      · left
        simpa [lookupAssoc, hak] using h
      · right
        exact ⟨p, List.mem_cons_of_mem _ hp, by simpa [lookupAssoc, hak] using h⟩

/-- Every price range the code can resolve — from any route row of
`PRICE_CATEGORIES`, from `DEFAULT_PRICE_RANGES`, or the wide fallback
`(0, 99999)` — has a lower bound that is a multiple of 100. -/
theorem range_min_dvd (f t tt : String) :
    (100 : Int) ∣ (type_price_range (route_prices f t) tt).1 := by
  rcases lookupAssoc_getD_cases (route_prices f t) tt ((0 : Int), (99999 : Int))
    with h2 | ⟨q, hq, h2⟩
  · unfold type_price_range
    rw [h2]
    decide
  · unfold type_price_range
    rw [h2]
    rcases lookupAssoc_getD_cases PRICE_CATEGORIES (f, t) DEFAULT_PRICE_RANGES
      with h1 | ⟨p, hp, h1⟩
    · unfold route_prices at hq
      rw [h1] at hq
      fin_cases hq <;> decide
    · unfold route_prices at hq
      rw [h1] at hq
      fin_cases hp <;> (simp only [] at hq; fin_cases hq <;> decide)

theorem mkFlight_spec (p : GenParams) (tt : String) (w : Int × Int)
    (g : RandGen) (hw : w.1 ≤ w.2) :
    (mkFlight p tt w g).1.type = tt ∧
    (∃ q : Int, (mkFlight p tt w g).1.price = q.fdiv 100 * 100 ∧ w.1 ≤ q ∧ q ≤ w.2) ∧
    (∃ (code : String) (n : Int),
      (mkFlight p tt w g).1.flight = code ++ "-" ++ toString n ∧
      (mkFlight p tt w g).1.airline = (lookupAssoc AIRLINES code).getD ("") ∧
      code ∈ AIRLINES.map Prod.fst ∧ (100 : Int) ≤ n ∧ n ≤ 999) := by
  refine ⟨rfl, ⟨_, rfl, ?_, ?_⟩, ⟨_, _, rfl, rfl, ?_, ?_, ?_⟩⟩
  · exact (randint_bounds hw _).1
  · exact (randint_bounds hw _).2
  · exact getD_mod_mem _ _ (by decide)
  · exact (randint_bounds (by decide) _).1
  · exact (randint_bounds (by decide) _).2

theorem genIteration_some {p : GenParams} {g : RandGen} {r : FlightRecord}
    (h : (genIteration p g).1 = some r) :
    (priceWindow p r.type).1 ≤ (priceWindow p r.type).2 ∧
    (∃ q : Int, r.price = q.fdiv 100 * 100 ∧
      (priceWindow p r.type).1 ≤ q ∧ q ≤ (priceWindow p r.type).2) ∧
    (∃ (code : String) (n : Int),
      r.flight = code ++ "-" ++ toString n ∧
      r.airline = (lookupAssoc AIRLINES code).getD ("") ∧
      code ∈ AIRLINES.map Prod.fst ∧ (100 : Int) ≤ n ∧ n ≤ 999) := by
  simp only [genIteration] at h
  split at h
  · exact absurd h (by simp)
  · simp only [Prod.fst] at h
    have hw : (priceWindow p (resolveTicketType p.reqType g).1).1
        ≤ (priceWindow p (resolveTicketType p.reqType g).1).2 := by omega
    have spec := mkFlight_spec p (resolveTicketType p.reqType g).1
      (priceWindow p (resolveTicketType p.reqType g).1) (resolveTicketType p.reqType g).2 hw
    obtain ⟨htype, hprice, hshape⟩ := spec
    have hr : r = (mkFlight p (resolveTicketType p.reqType g).1
        (priceWindow p (resolveTicketType p.reqType g).1) (resolveTicketType p.reqType g).2).1 :=
      (Option.some.inj h).symm
    rw [hr, htype]
    exact ⟨hw, hprice, hshape⟩

theorem genLoop_mem {p : GenParams} :
    ∀ {n : Nat} {g : RandGen} {r : FlightRecord},
      r ∈ (genLoop p n g).1.filterMap id → ∃ g', (genIteration p g').1 = some r := by
  intro n
  induction n with
  | zero =>
    intro g r hr
    simp [genLoop] at hr
  | succ k ih =>
    intro g r hr
    simp only [genLoop] at hr
    cases ho : (genIteration p g).1 with
    | none =>
      rw [ho] at hr
      simp only [List.filterMap_cons, id] at hr
      exact ih hr
    | some a =>
      rw [ho] at hr
      simp only [List.filterMap_cons, id] at hr
      rcases List.mem_cons.mp hr with hr | hr
      · exact ⟨g, by rw [ho, hr]⟩
      · exact ih hr

theorem generate_mem {p : GenParams} {g : RandGen} {r : FlightRecord}
    (hr : r ∈ generate_flights_on_demand p g) :
    ∃ g', (genIteration p g').1 = some r := by
  unfold generate_flights_on_demand at hr
  split at hr
  · exact genLoop_mem ((sortByPrice_perm _).mem_iff.mp hr)
  · simp at hr

/-- Claim C5 as amended: every returned record's price is a multiple of
100, lies below both upper bounds (`callerMax` and the resolved category
maximum), and is at least the resolved category minimum (all category
minima in the code's tables are multiples of 100). The caller's lower
bound holds only up to rounding: `callerMin - 99 ≤ price` always, and
`callerMin ≤ price` whenever `callerMin` is itself a multiple of 100 —
the floor-to-100 step can otherwise undershoot `callerMin` by up to 99. -/
theorem price_bounds_amended (p : GenParams) (g : RandGen) (r : FlightRecord)
    (hr : r ∈ generate_flights_on_demand p g) :
    r.price % 100 = 0 ∧
    r.price ≤ p.maxPrice ∧
    (resolvedRange p r.type).1 ≤ r.price ∧
    r.price ≤ (resolvedRange p r.type).2 ∧
    p.minPrice - 99 ≤ r.price ∧
    (p.minPrice % 100 = 0 → p.minPrice ≤ r.price) := by
  obtain ⟨g', hsome⟩ := generate_mem hr
  obtain ⟨hw, ⟨q, hprice, hq1, hq2⟩, -⟩ := genIteration_some hsome
  have hdvd : (100 : Int) ∣ (resolvedRange p r.type).1 :=
    range_min_dvd (p.fromLoc.getD ("")) (p.toLoc.getD ("")) r.type
  simp only [priceWindow] at hq1 hq2
  have hq1' : max p.minPrice (resolvedRange p r.type).1 ≤ q := hq1
  have hq2' : q ≤ min p.maxPrice (resolvedRange p r.type).2 := hq2
  have hfd : q.fdiv 100 = q / 100 := Int.fdiv_eq_ediv q (by norm_num)
  rw [hprice, hfd]
  refine ⟨by omega, by omega, by omega, by omega, by omega, by omega⟩

/-- Counterexample to claim C5 as stated: with `callerMin = 4050` the
generator can draw the price 4050 and floor it to 4000 < 4050, so
`callerMin ≤ price` fails for the returned record. -/
theorem price_below_caller_min_cex :
    generate_flights_on_demand lowMinParams zeroGen =
      [{ flight := "CI-100", airline := "China Airlines", fromLoc := "TPE",
         toLoc := "NRT", date := "2026-01-01", time := "07:00",
         price := 4000, type := "promo" }] ∧
    ¬ (∀ r ∈ generate_flights_on_demand lowMinParams zeroGen,
        lowMinParams.minPrice ≤ r.price) := by
  refine ⟨by decide, by decide⟩

/-- Witness for the amended C5 at a concrete admitted record. -/
theorem price_bounds_amended_witness :
    (4000 : Int) % 100 = 0 ∧
    (4000 : Int) ≤ lowMinParams.maxPrice ∧
    (resolvedRange lowMinParams "promo").1 ≤ 4000 ∧
    (4000 : Int) ≤ (resolvedRange lowMinParams "promo").2 ∧
    lowMinParams.minPrice - 99 ≤ 4000 ∧
    (lowMinParams.minPrice % 100 = 0 → lowMinParams.minPrice ≤ 4000) := by
  have h := price_bounds_amended lowMinParams zeroGen
    { flight := "CI-100", airline := "China Airlines", fromLoc := "TPE",
      toLoc := "NRT", date := "2026-01-01", time := "07:00",
      price := 4000, type := "promo" } (by decide)
  exact h

theorem genLoop_length (p : GenParams) :
    ∀ (n : Nat) (g : RandGen), ((genLoop p n g).1).length = n := by
  intro n
  induction n with
  | zero => intro g; rfl
  | succ k ih => intro g; simp [genLoop, ih]

theorem filterMap_id_length (l : List (Option FlightRecord)) :
    (l.filterMap id).length + l.count none = l.length := by
  induction l with
  | nil => rfl
  | cons o rest ih =>
    cases o with
    | none =>
      simp [List.filterMap_cons, List.count_cons]
      omega
    | some a =>
      simp [List.filterMap_cons, List.count_cons]
      omega

/-- Claim C6: the loop makes exactly `count` attempts; the output length
is `count` minus the number of skipped iterations, hence at most `count`,
and is strictly less than `count` exactly when some iteration was skipped;
an iteration is skipped exactly when its resolved category's intersected
price window is empty (`lo > hi`) — it emits nothing and does not retry. -/
theorem synthesis_cardinality (p : GenParams) (g : RandGen)
    (h : (truthy p.fromLoc && truthy p.toLoc && truthy p.dateStr) = true) :
    ((genLoop p p.count g).1).length = p.count ∧
    (generate_flights_on_demand p g).length
        = p.count - (genLoop p p.count g).1.count none ∧
    (generate_flights_on_demand p g).length ≤ p.count ∧
    ((generate_flights_on_demand p g).length < p.count ↔
      none ∈ (genLoop p p.count g).1) ∧
    (∀ g' : RandGen, (genIteration p g').1 = none ↔
      (priceWindow p (resolveTicketType p.reqType g').1).2
        < (priceWindow p (resolveTicketType p.reqType g').1).1) := by
  have hlen := genLoop_length p p.count g
  have hfm := filterMap_id_length (genLoop p p.count g).1
  have hgen : generate_flights_on_demand p g
      = sortByPrice ((genLoop p p.count g).1.filterMap id) := by
    simp [generate_flights_on_demand, h]
  have hout : (generate_flights_on_demand p g).length
      = ((genLoop p p.count g).1.filterMap id).length := by
    rw [hgen]
    exact (sortByPrice_perm _).length_eq
  refine ⟨hlen, by omega, by omega, ?_, ?_⟩
  · rw [hout]
    constructor
    · intro hlt
      have : 0 < (genLoop p p.count g).1.count none := by omega
      exact List.count_pos_iff.mp this
    · intro hmem
      have : 0 < (genLoop p p.count g).1.count none :=
        List.count_pos_iff.mpr hmem
      omega
  · intro g'
    by_cases hc : (priceWindow p (resolveTicketType p.reqType g').1).1
        > (priceWindow p (resolveTicketType p.reqType g').1).2
    · simp [genIteration, hc]
    · simp [genIteration, hc]

/-- Witness for C6: of two attempts, the first (category `normal`,
window `[9000, 9500]`) emits a record and the second (category `promo`,
empty window) is skipped, so the output is shorter than `count`. -/
theorem synthesis_cardinality_witness :
    ((genLoop tightParams tightParams.count tightGen).1).length = tightParams.count ∧
    (generate_flights_on_demand tightParams tightGen).length
        = tightParams.count - (genLoop tightParams tightParams.count tightGen).1.count none ∧
    (generate_flights_on_demand tightParams tightGen).length ≤ tightParams.count ∧
    ((generate_flights_on_demand tightParams tightGen).length < tightParams.count ↔
      none ∈ (genLoop tightParams tightParams.count tightGen).1) ∧
    (∀ g' : RandGen, (genIteration tightParams g').1 = none ↔
      (priceWindow tightParams (resolveTicketType tightParams.reqType g').1).2
        < (priceWindow tightParams (resolveTicketType tightParams.reqType g').1).1) :=
  synthesis_cardinality tightParams tightGen (by decide)

/-- Counterexample to claim C8: lines 139-149 draw the flight number with
no collision check against the numbers already produced in the call — a
constant random stream makes both iterations emit the same `CI-100`, so
flight numbers within one call are not pairwise distinct and nothing is
regenerated. -/
theorem duplicate_flight_numbers_cex :
    generate_flights_on_demand dupParams zeroGen =
      [{ flight := "CI-100", airline := "China Airlines", fromLoc := "TPE",
         toLoc := "NRT", date := "2026-01-01", time := "07:00",
         price := 3500, type := "promo" },
       { flight := "CI-100", airline := "China Airlines", fromLoc := "TPE",
         toLoc := "NRT", date := "2026-01-01", time := "07:00",
         price := 3500, type := "promo" }] ∧
    ¬ (generate_flights_on_demand dupParams zeroGen).Pairwise
        (fun a b => a.flight ≠ b.flight) := by
  refine ⟨by decide, by decide⟩

/-- Claim C8 as amended: each emitted record's flight code is one of the
fixed airline codes joined to an independently drawn number in
`[100, 999]`, with the matching airline display name; the draw never
consults the records already produced in the same call, so uniqueness
within a call is not guaranteed. -/
theorem flight_number_shape (p : GenParams) (g : RandGen) (r : FlightRecord)
    (hr : r ∈ generate_flights_on_demand p g) :
    ∃ (code : String) (n : Int),
      r.flight = code ++ "-" ++ toString n ∧
      r.airline = (lookupAssoc AIRLINES code).getD ("") ∧
      code ∈ AIRLINES.map Prod.fst ∧ (100 : Int) ≤ n ∧ n ≤ 999 := by
  obtain ⟨g', hsome⟩ := generate_mem hr
  obtain ⟨-, -, hshape⟩ := genIteration_some hsome
  exact hshape

/-- Witness for the amended C8 at a concrete generated record. -/
theorem flight_number_shape_witness :
    ∃ (code : String) (n : Int),
      ({ flight := "CI-100", airline := "China Airlines", fromLoc := "TPE",
         toLoc := "NRT", date := "2026-01-01", time := "07:00",
         price := 3500, type := "promo" } : FlightRecord).flight
          = code ++ "-" ++ toString n ∧
      ({ flight := "CI-100", airline := "China Airlines", fromLoc := "TPE",
         toLoc := "NRT", date := "2026-01-01", time := "07:00",
         price := 3500, type := "promo" } : FlightRecord).airline
          = (lookupAssoc AIRLINES code).getD ("") ∧
      code ∈ AIRLINES.map Prod.fst ∧ (100 : Int) ≤ n ∧ n ≤ 999 :=
  flight_number_shape dupParams zeroGen
    { flight := "CI-100", airline := "China Airlines", fromLoc := "TPE",
      toLoc := "NRT", date := "2026-01-01", time := "07:00",
      price := 3500, type := "promo" } (by decide)

/-! ### The load-simulation harness totals -/

theorem make_request_step (st : SimStats) (o : CallOutcome) :
    ((make_request st o).2).successful_requests
        + ((make_request st o).2).failed_requests
        + ((make_request st o).2).blocked_requests
      = st.successful_requests + st.failed_requests + st.blocked_requests + 1 ∧
    ((make_request st o).2).total_requests
      = st.total_requests + (if o = CallOutcome.connError then 0 else 1) := by
  cases o with
  | connError =>
    simp [make_request]
    omega
  | http code =>
    simp only [make_request]
    by_cases h200 : code = 200
    · simp [h200]
      omega
    · by_cases h429 : code = 429
      · simp [h200, h429]
        omega
      · by_cases h401 : code = 401
        · simp [h200, h429, h401]
          omega
        · simp [h200, h429, h401]
          omega

theorem runRequests_counts :
    ∀ (rs : List CallOutcome) (st : SimStats),
      (runRequests st rs).successful_requests + (runRequests st rs).failed_requests
          + (runRequests st rs).blocked_requests
        = st.successful_requests + st.failed_requests + st.blocked_requests + rs.length ∧
      (runRequests st rs).total_requests + rs.count CallOutcome.connError
        = st.total_requests + rs.length := by
  intro rs
  induction rs with
  | nil => intro st; simp [runRequests]
  | cons o rest ih =>
    intro st
    obtain ⟨ih1, ih2⟩ := ih (make_request st o).2
    obtain ⟨hs1, hs2⟩ := make_request_step st o
    simp only [runRequests, List.count_cons, List.length_cons]
    constructor
    · omega
    · cases o with
      | connError =>
        simp at hs2 ⊢
        omega
      | http code =>
        simp at hs2 ⊢
        omega

/-- Claim C9 as amended: after any sequence of completed calls, each call
was classified into exactly one bucket, so
`success + failed + blocked = number of calls`; but the exception path
increments `failed_requests` without reaching `total_requests += 1`, so
`total_requests = calls - #connectionErrors`, and the claimed identity
`total = success + failed + blocked` holds exactly when no call ended in
`ConnectionError`; the printed statistics are exactly the four totals plus
the two rates computed from them. -/
theorem simulator_totals (rs : List CallOutcome) :
    (runRequests initStats rs).successful_requests
        + (runRequests initStats rs).failed_requests
        + (runRequests initStats rs).blocked_requests = rs.length ∧
    (runRequests initStats rs).total_requests + rs.count CallOutcome.connError
        = rs.length ∧
    (rs.count CallOutcome.connError = 0 →
      (runRequests initStats rs).total_requests
        = (runRequests initStats rs).successful_requests
          + (runRequests initStats rs).failed_requests
          + (runRequests initStats rs).blocked_requests) ∧
    print_statistics (runRequests initStats rs)
      = ((runRequests initStats rs).total_requests,
         (runRequests initStats rs).successful_requests,
         (runRequests initStats rs).failed_requests,
         (runRequests initStats rs).blocked_requests,
         if 0 < (runRequests initStats rs).total_requests then
           some (((runRequests initStats rs).successful_requests : ℚ)
                   / (runRequests initStats rs).total_requests * 100,
                 ((runRequests initStats rs).blocked_requests : ℚ)
                   / (runRequests initStats rs).total_requests * 100)
         else none) := by
  obtain ⟨h1, h2⟩ := runRequests_counts rs initStats
  have e1 : initStats.successful_requests = 0 := rfl
  have e2 : initStats.failed_requests = 0 := rfl
  have e3 : initStats.blocked_requests = 0 := rfl
  have e4 : initStats.total_requests = 0 := rfl
  rw [e1, e2, e3] at h1
  rw [e4] at h2
  refine ⟨by omega, by omega, ?_, rfl⟩
  intro h
  omega

/-- Witness for the amended C9 on a concrete mixed run. -/
theorem simulator_totals_witness :
    (runRequests initStats [CallOutcome.http 200, CallOutcome.http 429,
        CallOutcome.http 401, CallOutcome.http 503, CallOutcome.connError]).successful_requests
        + (runRequests initStats [CallOutcome.http 200, CallOutcome.http 429,
            CallOutcome.http 401, CallOutcome.http 503, CallOutcome.connError]).failed_requests
        + (runRequests initStats [CallOutcome.http 200, CallOutcome.http 429,
            CallOutcome.http 401, CallOutcome.http 503, CallOutcome.connError]).blocked_requests
      = [CallOutcome.http 200, CallOutcome.http 429, CallOutcome.http 401,
         CallOutcome.http 503, CallOutcome.connError].length ∧
    (runRequests initStats [CallOutcome.http 200, CallOutcome.http 429,
        CallOutcome.http 401, CallOutcome.http 503, CallOutcome.connError]).total_requests
        + [CallOutcome.http 200, CallOutcome.http 429, CallOutcome.http 401,
           CallOutcome.http 503, CallOutcome.connError].count CallOutcome.connError
      = [CallOutcome.http 200, CallOutcome.http 429, CallOutcome.http 401,
         CallOutcome.http 503, CallOutcome.connError].length ∧
    ([CallOutcome.http 200, CallOutcome.http 429, CallOutcome.http 401,
      CallOutcome.http 503, CallOutcome.connError].count CallOutcome.connError = 0 →
      (runRequests initStats [CallOutcome.http 200, CallOutcome.http 429,
          CallOutcome.http 401, CallOutcome.http 503, CallOutcome.connError]).total_requests
        = (runRequests initStats [CallOutcome.http 200, CallOutcome.http 429,
            CallOutcome.http 401, CallOutcome.http 503, CallOutcome.connError]).successful_requests
          + (runRequests initStats [CallOutcome.http 200, CallOutcome.http 429,
              CallOutcome.http 401, CallOutcome.http 503, CallOutcome.connError]).failed_requests
          + (runRequests initStats [CallOutcome.http 200, CallOutcome.http 429,
              CallOutcome.http 401, CallOutcome.http 503, CallOutcome.connError]).blocked_requests) ∧
    print_statistics (runRequests initStats [CallOutcome.http 200, CallOutcome.http 429,
        CallOutcome.http 401, CallOutcome.http 503, CallOutcome.connError])
      = ((runRequests initStats [CallOutcome.http 200, CallOutcome.http 429,
            CallOutcome.http 401, CallOutcome.http 503, CallOutcome.connError]).total_requests,
         (runRequests initStats [CallOutcome.http 200, CallOutcome.http 429,
            CallOutcome.http 401, CallOutcome.http 503, CallOutcome.connError]).successful_requests,
         (runRequests initStats [CallOutcome.http 200, CallOutcome.http 429,
            CallOutcome.http 401, CallOutcome.http 503, CallOutcome.connError]).failed_requests,
         (runRequests initStats [CallOutcome.http 200, CallOutcome.http 429,
            CallOutcome.http 401, CallOutcome.http 503, CallOutcome.connError]).blocked_requests,
         if 0 < (runRequests initStats [CallOutcome.http 200, CallOutcome.http 429,
             CallOutcome.http 401, CallOutcome.http 503, CallOutcome.connError]).total_requests then
           some (((runRequests initStats [CallOutcome.http 200, CallOutcome.http 429,
                     CallOutcome.http 401, CallOutcome.http 503, CallOutcome.connError]).successful_requests : ℚ)
                   / (runRequests initStats [CallOutcome.http 200, CallOutcome.http 429,
                       CallOutcome.http 401, CallOutcome.http 503, CallOutcome.connError]).total_requests * 100,
                 ((runRequests initStats [CallOutcome.http 200, CallOutcome.http 429,
                     CallOutcome.http 401, CallOutcome.http 503, CallOutcome.connError]).blocked_requests : ℚ)
                   / (runRequests initStats [CallOutcome.http 200, CallOutcome.http 429,
                       CallOutcome.http 401, CallOutcome.http 503, CallOutcome.connError]).total_requests * 100)
         else none) :=
  simulator_totals [CallOutcome.http 200, CallOutcome.http 429, CallOutcome.http 401,
    CallOutcome.http 503, CallOutcome.connError]

/-- Counterexample to claim C9 as stated: a run consisting of one
`ConnectionError` leaves `total_requests` at 0 while `failed_requests`
is 1, so `total = success + failed + blocked` fails. -/
theorem conn_error_total_mismatch_cex :
    (runRequests initStats [CallOutcome.connError]).total_requests = 0 ∧
    (runRequests initStats [CallOutcome.connError]).failed_requests = 1 ∧
    (runRequests initStats [CallOutcome.connError]).total_requests
      ≠ (runRequests initStats [CallOutcome.connError]).successful_requests
        + (runRequests initStats [CallOutcome.connError]).failed_requests
        + (runRequests initStats [CallOutcome.connError]).blocked_requests := by
  refine ⟨rfl, rfl, by decide⟩
